import Mathlib

/-
Shallow embedding of the type-erasure and dispatch engine of
src/cxx_function.hpp (namespace cxx_function, class wrapper_base and the
erasure classes it manages). Machine-level details are modelled as follows:

* std::type_info tokens are natural numbers; typeid(void) is the token 0 and
  every object type has a nonzero token (distinct C++ object types have
  distinct type_info values, and no object type is void).
* A stored callable is modelled by its semantic behavior: a token for its
  dynamic type together with a call function on integer argument lists that
  may either return a value or propagate a C++ exception (Except).
* Exceptions are a small inductive: the std::bad_function_call raised by the
  empty erasure dispatchers, and arbitrary user exceptions carrying a code.
* Raw storage addresses of the allocator-backed erasure are natural numbers
  managed by an explicit heap record.
-/

set_option autoImplicit false

namespace CxxFn

/-- Exceptions observable at the wrapper boundary: badFunctionCall models
std::bad_function_call (thrown by the null_erasure dispatchers, src line 139);
userError models any other exception thrown by payload code. -/
inductive Err where
  | badFunctionCall : Err
  | userError : Nat → Err
deriving DecidableEq

/-- The reserved no-type token: typeid(void), installed in the null_erasure
dispatch table by DISPATCH_TABLE( null_erasure, void, ... ) at src line 156. -/
def tidVoid : Nat := 0

/-- Semantic model of a concrete callable payload: its type-identity token
(nonzero, since it is the typeid of a real object type, never void) and its
call behavior on an argument list, which may throw. -/
structure Callable where
  typeId : Nat
  call : List Int → Except Err Int
  typeId_ne_void : typeId ≠ tidVoid

/-- The erasure variants that can occupy wrapper_base storage (src lines
143-154 null_erasure, 174-189 local_erasure, 200-214 ptm_erasure, 227-263
allocator_erasure). A pointer payload is stored as a local_erasure of the
pointer (src line 347). The allocator_erasure here is a live one: its
indirection handle addr is valid and the payload lives behind it. For the
ptm_erasure the Callable call field is the std::mem_fn application semantics
of the stored pointer to member. -/
inductive Erasure where
  | null_erasure : Erasure
  | local_erasure (target : Callable) : Erasure
  | ptm_erasure (target : Callable) : Erasure
  | allocator_erasure (addr : Nat) (target : Callable) : Erasure

/-- The target_type entry of each dispatch table: typeid(void) for
null_erasure (src line 156), typeid(target_type) for the payload-bearing
erasures (src lines 134, 191, 216, 265). -/
def Erasure.target_type : Erasure → Nat
  | .null_erasure => tidVoid
  | .local_erasure c => c.typeId
  | .ptm_erasure c => c.typeId
  | .allocator_erasure _ c => c.typeId

/-- The target_access entry of each dispatch table: nullptr for null_erasure
(src line 150), the address of the stored target for local_erasure and
ptm_erasure (src lines 183, 209), the address of the heap payload for
allocator_erasure (src line 240). A returned payload is modelled by the
Callable value it denotes; none models nullptr. -/
def Erasure.target_access : Erasure → Option Callable
  | .null_erasure => none
  | .local_erasure c => some c
  | .ptm_erasure c => some c
  | .allocator_erasure _ c => some c

/-- The invocation dispatcher of each erasure for one declared signature:
null_dispatch throws std::bad_function_call (src line 139); local_dispatch
forwards to the stored target (src lines 167-170); ptm_dispatch applies
std::mem_fn to the stored pointer to member (src lines 194-197);
allocator_dispatch forwards through the indirection handle (src lines
220-223). -/
def Erasure.invoke : Erasure → List Int → Except Err Int
  | .null_erasure, _ => .error .badFunctionCall
  | .local_erasure c, a => c.call a
  | .ptm_erasure c, a => c.call a
  | .allocator_erasure _ c, a => c.call a

/-- The payload a non-empty erasure holds, if any. -/
def Erasure.payload : Erasure → Option Callable
  | .null_erasure => none
  | .local_erasure c => some c
  | .ptm_erasure c => some c
  | .allocator_erasure _ c => some c

/-- The move entry of each dispatch table constructs an erasure of the same
concrete type in the destination storage from the source erasure (src lines
77-78 erasure_special move; 252-256 the allocator_erasure move constructor,
which takes over the indirection handle). The semantic content carried by the
new erasure equals the content of the source: a well-formed move constructor
of the payload preserves its value. -/
def Erasure.move_constructed : Erasure → Erasure
  | .null_erasure => .null_erasure
  | .local_erasure c => .local_erasure c
  | .ptm_erasure c => .ptm_erasure c
  | .allocator_erasure a c => .allocator_erasure a c

/-- The public wrapper (src lines 289-424, class wrapper_base): its storage
always holds exactly one validly constructed erasure. -/
structure wrapper_base where
  erasure : Erasure

/-- target_type (src lines 410-411): reads the target_type entry of the
dispatch table of the current erasure. -/
def wrapper_base.target_type (w : wrapper_base) : Nat :=
  w.erasure.target_type

/-- operator bool (src lines 422-423): target_type() != typeid(void). -/
def wrapper_base.operator_bool (w : wrapper_base) : Bool :=
  w.target_type != tidVoid

/-- target, src lines 413-417: if typeid(want) differs from target_type()
return nullptr, else return the target_access entry applied to the erasure,
cast to the requested type. -/
def wrapper_base.target (w : wrapper_base) (want : Nat) : Option Callable :=
  if want != w.target_type then none else w.erasure.target_access

/-- Invocation through the wrapper (WRAPPER_CASE, src lines 269-274): fetch
the dispatcher entry for the signature from the table of the current erasure
and call it with the forwarded arguments. -/
def wrapper_base.invoke (w : wrapper_base) (a : List Int) : Except Err Int :=
  w.erasure.invoke a

/-- Size, alignment and move attributes of a prospective payload type, the
inputs of the is_small test. -/
structure SourceMeta where
  size : Nat
  align : Nat
  nothrow_move : Bool
deriving DecidableEq

/-- sizeof of the wrapper storage, std aligned_storage of sizeof(void*[4])
(src line 294), with 8-byte pointers. -/
def storage_size : Nat := 32

/-- Alignment of the wrapper storage in the same model. -/
def storage_align : Nat := 16

/-- The is_small test (src lines 324-331): the local erasure for the payload
(one table reference plus the payload value, modelled as 8 + size) fits the
storage, the alignment fits, and the payload is nothrow move constructible. -/
def is_small (m : SourceMeta) : Bool :=
  (8 + m.size ≤ storage_size) && (m.align ≤ storage_align) && m.nothrow_move

/-- A construction or assignment source for the wrapper, covering the init
overload set (src lines 303-379): the null sentinel; an arbitrary callable
value whose in-place construction may throw (the Except models the outcome of
running the payload constructor) together with its layout attributes; a
function pointer, null (none) or not; a pointer to member, null or not. The
size field of the pointer forms records the sizeof attribute of the payload
so that size-independence of the null cases is expressible. -/
inductive Source where
  | nullSrc : Source
  | fnValue (mk : Except Err Callable) (m : SourceMeta) : Source
  | fnPointer (size : Nat) (val : Option Callable) : Source
  | ptmValue (size : Nat) (val : Option Callable) : Source

/-- The init overload set of wrapper_base (src lines 303-379), returning the
erasure constructed in storage or propagating the exception thrown by the
payload constructor:
* init(nullptr_t) places a null_erasure (src lines 303-304);
* a function pointer is tested against null: null degrades to init(), a
  non-null pointer is stored as a local_erasure of the pointer, with no
  is_small test on either branch (src lines 345-349);
* a pointer to member likewise degrades to init() when null and is stored in
  a ptm_erasure otherwise (src lines 351-355);
* any other value is dispatched on is_small: a small nothrow-movable payload
  is placed in a local_erasure (src lines 334-337), otherwise an
  allocator_erasure is constructed with a fresh heap address (src lines
  357-368, modelled with address 0). -/
def init : Source → Except Err Erasure
  | .nullSrc => .ok .null_erasure
  | .fnPointer _ none => .ok .null_erasure
  | .fnPointer _ (some c) => .ok (.local_erasure c)
  | .ptmValue _ none => .ok .null_erasure
  | .ptmValue _ (some c) => .ok (.ptm_erasure c)
  | .fnValue mk m =>
      mk.map (fun c =>
        if is_small m then .local_erasure c else .allocator_erasure 0 c)

/-- The wrapper_base constructor (src lines 387-390): run init on the source
and wrap the constructed erasure. -/
def construct (s : Source) : Except Err wrapper_base :=
  (init s).map wrapper_base.mk

/-- The copy entry of a dispatch table constructs an erasure of the same
concrete type with equal semantic content (erasure_special copy, src lines
79-80); the allocator_erasure copy constructor (src lines 258-262) allocates
fresh storage, modelled with address 0, and copy-constructs the payload.
Whether the payload copy constructor throws is supplied separately by the
assignment source below. -/
def Erasure.copy_constructed : Erasure → Erasure
  | .null_erasure => .null_erasure
  | .local_erasure c => .local_erasure c
  | .ptm_erasure c => .ptm_erasure c
  | .allocator_erasure _ c => .allocator_erasure 0 c

/-- An assignment source for operator= (src lines 395-405), which deduces
source&& and therefore distinguishes value categories: a plain callable
source (the init overload set) tagged with whether it is an lvalue, or
another wrapper, moved from or copied from. For a copied wrapper the copyMk
field carries the outcome of the payload copy constructor run by the copy
table entry, information not determined by the call behavior of the payload.
-/
inductive AssignSource where
  | plain (s : Source) (lvalue : Bool) : AssignSource
  | wrapperMove (o : wrapper_base) : AssignSource
  | wrapperCopy (o : wrapper_base) (copyMk : Except Err Unit) : AssignSource

/-- The is_small test (src lines 324-331) instantiated at the undecayed
deduced type F& of an lvalue source, as the noexcept specification on
operator= does (src line 397): local_erasure of a reference holds one table
reference and one bound reference, alignof (F&) is the alignment of F, and
binding a reference never throws, so only the alignment constraint remains;
in particular the result does not depend on the size of F or on whether F
can throw on move or copy. -/
def is_small_lvalue_ref (m : SourceMeta) : Bool :=
  (8 + 8 ≤ storage_size) && (m.align ≤ storage_align) && true

/-- The noexcept specification of operator= (src line 397),
is_compatibly_wrapped (source) or is_small (source), computed at the deduced
undecayed source type: true for wrapper sources of either value category,
for the null sentinel, for pointers and pointers to member (both small
nothrow types), and for every lvalue callable through is_small at F&; for an
rvalue callable value it is the ordinary is_small test at the value type. -/
def assign_noexcept : AssignSource → Bool
  | .plain .nullSrc _ => true
  | .plain (.fnValue _ m) lv => if lv then is_small_lvalue_ref m else is_small m
  | .plain (.fnPointer _ _) _ => true
  | .plain (.ptmValue _ _) _ => true
  | .wrapperMove _ => true
  | .wrapperCopy _ _ => true

/-- The construction attempted by operator= for each assignment source: the
init overload set for a plain callable source (src lines 303-379), the
noexcept move table entry for a moved wrapper (src lines 306-309), and the
copy table entry for a copied wrapper (src lines 311-312), which throws
exactly when the payload copy constructor does. (An rvalue plain source that
passes is_small is placed by the nothrow move constructor of the payload, so
a throwing mk together with a passing is_small and lvalue false corresponds
to no actual C++ execution.) -/
def initAssign : AssignSource → Except Err Erasure
  | .plain s _ => init s
  | .wrapperMove o => .ok o.erasure.move_constructed
  | .wrapperCopy o copyMk => copyMk.map (fun _ => o.erasure.copy_constructed)

/-- Observable outcome of one assignment: completed with the new wrapper
state; or an exception delivered to the caller together with the wrapper
state left behind; or std::terminate reached because a throw escaped a
function declared noexcept. -/
inductive AssignOutcome where
  | ok (w : wrapper_base) : AssignOutcome
  | thrown (w : wrapper_base) (e : Err) : AssignOutcome
  | terminated : AssignOutcome

/-- operator= (src lines 395-405) together with its noexcept specification
(src line 397): destroy the current erasure, construct the new one in place
from the source; on an exception the handler re-enters the valid state by
placing a null_erasure and rethrows; when the instantiated operator is
declared noexcept, that rethrow escapes a noexcept function and the program
terminates instead of delivering the exception to the caller. -/
def wrapper_base.assign (w : wrapper_base) (s : AssignSource) : AssignOutcome :=
  match initAssign s with
  | .ok e => .ok ⟨e⟩
  | .error err =>
      if assign_noexcept s then .terminated
      else .thrown ⟨.null_erasure⟩ err

/-- Destruction of the moved-from source erasure during the o = nullptr step
of init from an rvalue wrapper (src line 308): the erasure_special
destructors of the null, local and ptm erasures run fine on a moved-from
instance; the allocator_erasure destructor (src lines 249-250) computes
addressof(*target) and calls allocator_traits destroy there with no null
check, although the move constructor has just set target = nullptr (src line
256): a null dereference, undefined behavior, modelled as none. -/
def Erasure.moved_from_destroy : Erasure → Option Unit
  | .null_erasure => some ()
  | .local_erasure _ => some ()
  | .ptm_erasure _ => some ()
  | .allocator_erasure _ _ => none

/-- init from an rvalue wrapper (src lines 306-309): move-construct the
erasure of the source into this storage through the move entry of its table,
then assign nullptr to the source, which destroys its moved-from erasure and
leaves a null_erasure in it. The first component is the destination wrapper;
the second is the source wrapper after the operation when the destruction of
its moved-from erasure is defined, and none when that destruction is
undefined behavior. -/
def wrapper_base.init_move (o : wrapper_base) :
    wrapper_base × Option wrapper_base :=
  (⟨o.erasure.move_constructed⟩,
   (o.erasure.moved_from_destroy).map (fun _ => ⟨.null_erasure⟩))

/-- The data members of allocator_erasure relevant to handle transfer (src
lines 227-263): the indirection handle target (none models a null
allocator_traits pointer) and the semantic payload behind it. -/
structure allocator_erasure_rec where
  target : Option Nat
  payload : Callable

/-- The allocator_erasure move constructor (src lines 252-256): the new
erasure takes over the handle of the source (target(std::move(o.target))) and
the body then nulls the handle of the source (o.target = nullptr). The
first component is the newly constructed erasure, the second the moved-from
source. -/
def allocator_erasure_move (o : allocator_erasure_rec) :
    allocator_erasure_rec × allocator_erasure_rec :=
  (⟨o.target, o.payload⟩, ⟨none, o.payload⟩)

/-- Explicit heap for the allocator model: the next fresh address, the
addresses currently allocated and not yet deallocated, and the addresses
currently holding a constructed payload. -/
structure Heap where
  next : Nat
  liveAllocs : List Nat
  liveObjs : List Nat
deriving DecidableEq

/-- allocator_traits allocate(alloc, 1): hand out the next fresh address and
record it as allocated. -/
def Heap.allocate (h : Heap) : Nat × Heap :=
  (h.next, ⟨h.next + 1, h.next :: h.liveAllocs, h.liveObjs⟩)

/-- allocator_traits construct(alloc, p, args...): record a constructed
payload at the address. -/
def Heap.constructAt (h : Heap) (a : Nat) : Heap :=
  ⟨h.next, h.liveAllocs, a :: h.liveObjs⟩

/-- allocator_traits destroy(alloc, p): the payload at the address ends its
lifetime; the allocation itself stays live. -/
def Heap.destroyAt (h : Heap) (a : Nat) : Heap :=
  ⟨h.next, h.liveAllocs, h.liveObjs.erase a⟩

/-- allocator_traits deallocate(alloc, p, 1): release the allocation. The
erasure code under src never calls this operation. -/
def Heap.deallocate (h : Heap) (a : Nat) : Heap :=
  ⟨h.next, h.liveAllocs.erase a, h.liveObjs⟩

/-- The allocator_erasure constructor (src lines 242-247) as written: the
member initializer allocates one element, then the body constructs the
payload there. When the construct step throws (construct_ok false) the
exception leaves the constructor with no cleanup: the members destroyed
during unwinding are the embedded allocator and the raw pointer, neither of
which releases the fresh allocation, so the heap still records it as live. -/
def allocator_erasure_ctor (h : Heap) (construct_ok : Bool) :
    Except (Err × Heap) (Nat × Heap) :=
  let p := h.allocate
  if construct_ok then .ok (p.1, p.2.constructAt p.1)
  else .error (.userError 0, p.2)

/-- The allocator_erasure destructor (src lines 249-250) as written: it calls
allocator_traits destroy on the payload address and returns; it never calls
deallocate, so the allocation stays live. -/
def allocator_erasure_dtor (h : Heap) (a : Nat) : Heap :=
  h.destroyAt a

/-- Qualifier of the access path used to invoke the wrapper, for a signature
declared without a const qualifier: through a mutable reference or through a
const reference. -/
inductive AccessQual where
  | nonconst : AccessQual
  | constq : AccessQual
deriving DecidableEq

/-- Which generated call operator overload resolution selects for a
non-const declared signature: the ordinary WRAPPER_CASE operator (src lines
269-274), or the synthesized const_unsafe_case fallback (src lines 278-287).
-/
inductive OverloadChoice where
  | primary : OverloadChoice
  | const_fallback : OverloadChoice
deriving DecidableEq

/-- Overload resolution on the generated operator set for a signature
declared without const: a mutable access path binds the unqualified primary
operator; a const access path can only bind the const-qualified synthesized
fallback, appended by DISPATCH_CASE with UNSAFE = UNPACK (src lines 106-119)
and realized by the const_unsafe_case specialization (src lines 278-287). -/
def overload_resolve : AccessQual → OverloadChoice
  | .nonconst => .primary
  | .constq => .const_fallback

/-- The deprecation marking of each generated overload: the const_unsafe_case
operator carries the deprecated attribute (src line 282), the primary one
does not. -/
def overload_deprecated : OverloadChoice → Bool
  | .primary => false
  | .const_fallback => true

/-- Body of the primary WRAPPER_CASE operator (src lines 269-274): fetch the
dispatcher for this signature from the table of the current erasure and
invoke it. -/
def primary_call (w : wrapper_base) (a : List Int) : Except Err Int :=
  w.invoke a

/-- Body of the const_unsafe_case fallback operator (src lines 283-286):
const_cast the wrapper to a mutable reference and re-invoke through the
primary operator with the forwarded arguments. -/
def const_fallback_call (w : wrapper_base) (a : List Int) : Except Err Int :=
  primary_call w a

/-- A call through the wrapper under a given access-path qualifier: resolve
the overload, then run its body. -/
def wrapper_call (w : wrapper_base) (q : AccessQual) (a : List Int) :
    Except Err Int :=
  match overload_resolve q with
  | .primary => primary_call w a
  | .const_fallback => const_fallback_call w a

/-- Shape of one dispatch table (src lines 53-70): presence of the
destructor, move constructor, target access and target type entries, and the
content of the copy constructor slot, where none models a null member
pointer reference. -/
structure SlotTable where
  destructor_slot : Bool
  move_slot : Bool
  copy_slot : Option Unit
  target_access_slot : Bool
  target_type_slot : Bool
deriving DecidableEq

/-- The erasure_copy accessor (src lines 83-91): for a copy-constructible
erasure it yields the erasure_special copy member, and for a
non-copy-constructible one it yields a null member pointer, keeping the slot
layout uniform. The argument is the copy operation of the erasure when the
erasure is copy-constructible, none otherwise. -/
def erasure_copy : Option Unit → Option Unit
  | some u => some u
  | none => none

/-- The DISPATCH_TABLE initializer as written (src lines 127-136): the copy
slot is filled from the address of the erasure_special copy member itself
(src line 132), never through erasure_copy. Taking that address instantiates
the copy body, which is ill-formed for a non-copy-constructible payload, so
for such a payload no table can be formed at all (modelled as none); every
table that is formed carries a non-null copy slot. -/
def dispatch_table_as_written : Option Unit → Option SlotTable
  | some u => some ⟨true, true, some u, true, true⟩
  | none => none

/-- A concrete payload used as witness input: type token 5, summing its
arguments. -/
def sample_payload : Callable :=
  ⟨5, fun a => .ok (a.foldl (fun x y => x + y) 0), by decide⟩

/-- A payload whose own call throws std::bad_function_call: type token 1,
every invocation propagates badFunctionCall. Such a payload is an ordinary
C++ callable and can be stored in the wrapper. -/
def bad_payload : Callable :=
  ⟨1, fun _ => .error .badFunctionCall, by decide⟩

/-- An lvalue callable of size 100 and alignment 8 whose construction throws
userError 7: the deduced source type F& passes the is_small test used by the
noexcept specification (a bound reference is small and nothrow), so the
instantiated operator= is declared noexcept, while the construction actually
performed copy-constructs the large payload and throws. -/
def lvalue_throwing_source : AssignSource :=
  .plain (.fnValue (.error (.userError 7)) ⟨100, 8, false⟩) true

/-- An rvalue callable of size 100 and alignment 8 whose construction throws
userError 7: it fails the is_small test, so the instantiated operator= is
not noexcept and the exception can propagate. -/
def rvalue_throwing_source : AssignSource :=
  .plain (.fnValue (.error (.userError 7)) ⟨100, 8, false⟩) false

end CxxFn

namespace CxxFn

/-- Claim C1: for every payload accepted by the wrapper, constructing a
wrapper from it and invoking the wrapper yields the same result as calling
the payload directly, across the local, pointer, pointer-to-member and
allocator-backed storage selections. -/
theorem construct_then_invoke_eq_direct_call :
    (∀ (c : Callable) (m : SourceMeta) (a : List Int),
        (construct (.fnValue (.ok c) m)).map (fun w => w.invoke a)
          = .ok (c.call a))
  ∧ (∀ (sz : Nat) (c : Callable) (a : List Int),
        (construct (.fnPointer sz (some c))).map (fun w => w.invoke a)
          = .ok (c.call a))
  ∧ (∀ (sz : Nat) (c : Callable) (a : List Int),
        (construct (.ptmValue sz (some c))).map (fun w => w.invoke a)
          = .ok (c.call a)) := by
  refine ⟨fun c m a => ?_, fun _ _ _ => rfl, fun _ _ _ => rfl⟩
  cases h : is_small m <;>
    simp [construct, init, Except.map, h, wrapper_base.invoke, Erasure.invoke]

/-- Claim C2 counterexample: the claimed three-way equivalence fails on a
wrapper whose stored payload itself throws std::bad_function_call: the
wrapper is non-empty (boolean conversion true) yet every invocation raises
the empty-invocation error. -/
theorem empty_equivalence_counterexample :
    ¬ ∀ w : wrapper_base,
        ((w.operator_bool = false) ↔ (w.target_type = tidVoid))
      ∧ ((w.operator_bool = false)
          ↔ (∀ a, w.invoke a = .error .badFunctionCall)) := by
  intro h
  have hb := ((h ⟨.local_erasure bad_payload⟩).2).mpr (fun _ => rfl)
  exact absurd hb (by decide)

/-- Claim C2 amended: boolean conversion is false exactly when the target
type query returns the no-type token, exactly when the stored erasure is the
empty one; and every invocation of an empty wrapper raises the
empty-invocation error, which propagates to the caller. (The converse of the
last part fails: a non-empty wrapper can raise the same error when its
payload does.) -/
theorem empty_equivalence_amended (w : wrapper_base) :
    ((w.operator_bool = false) ↔ (w.target_type = tidVoid))
  ∧ ((w.operator_bool = false) ↔ (w.erasure = .null_erasure))
  ∧ (w.erasure = .null_erasure →
      ∀ a, w.invoke a = .error .badFunctionCall) := by
  obtain ⟨er⟩ := w
  refine ⟨?_, ?_, ?_⟩
  · simp [wrapper_base.operator_bool]
  · cases er with
    | null_erasure =>
        simp [wrapper_base.operator_bool, wrapper_base.target_type,
          Erasure.target_type]
    | local_erasure c =>
        simp [wrapper_base.operator_bool, wrapper_base.target_type,
          Erasure.target_type, c.typeId_ne_void]
    | ptm_erasure c =>
        simp [wrapper_base.operator_bool, wrapper_base.target_type,
          Erasure.target_type, c.typeId_ne_void]
    | allocator_erasure a c =>
        simp [wrapper_base.operator_bool, wrapper_base.target_type,
          Erasure.target_type, c.typeId_ne_void]
  · intro h a
    simp only at h
    subst h
    rfl

/-- Claim C2 amended, witness: the default empty wrapper raises the
empty-invocation error. -/
theorem empty_equivalence_amended_witness :
    (⟨Erasure.null_erasure⟩ : wrapper_base).invoke []
      = .error .badFunctionCall :=
  (empty_equivalence_amended ⟨Erasure.null_erasure⟩).2.2 rfl []

/-- Claim C3 counterexample: it is not true that every throwing construction
during assignment delivers the exception to the caller with the wrapper left
empty: assigning a large lvalue callable whose construction throws runs
under an operator= declared noexcept (the specification at src line 397 is
computed at the undecayed type F&, which passes is_small), so the rethrow
escapes a noexcept function and the program terminates instead. -/
theorem assign_noexcept_counterexample :
    ¬ ∀ (w : wrapper_base) (s : AssignSource) (e : Err),
        initAssign s = .error e →
        ∃ post : wrapper_base,
          w.assign s = .thrown post e ∧ post.operator_bool = false := by
  intro h
  obtain ⟨post, hpost, -⟩ :=
    h ⟨.null_erasure⟩ lvalue_throwing_source (.userError 7) rfl
  exact AssignOutcome.noConfusion hpost

/-- Claim C3 amended: when constructing the new target during assignment
throws and the instantiated operator= is not declared noexcept, the wrapper
is observably empty afterwards (boolean conversion false) and the original
exception is the one delivered to the caller; when the instantiated
operator= is declared noexcept (wrapper sources and sources whose deduced
type passes is_small, in particular every lvalue callable of ordinary
alignment), the rethrow escapes the noexcept function and the program
reaches std::terminate instead. -/
theorem assign_exception_safety_amended (w : wrapper_base) (s : AssignSource)
    (e : Err) (h : initAssign s = .error e) :
    (assign_noexcept s = false →
        w.assign s = .thrown ⟨.null_erasure⟩ e
      ∧ (⟨Erasure.null_erasure⟩ : wrapper_base).operator_bool = false)
  ∧ (assign_noexcept s = true → w.assign s = .terminated) := by
  constructor
  · intro hn
    refine ⟨?_, rfl⟩
    simp [wrapper_base.assign, h, hn]
  · intro hn
    simp [wrapper_base.assign, h, hn]

/-- Claim C3 amended, witness: assigning an rvalue non-small source whose
construction throws userError 7 leaves the wrapper empty and delivers
exactly that exception. -/
theorem assign_exception_safety_amended_witness :
    (⟨Erasure.null_erasure⟩ : wrapper_base).assign rvalue_throwing_source
      = .thrown ⟨Erasure.null_erasure⟩ (.userError 7) :=
  ((assign_exception_safety_amended ⟨Erasure.null_erasure⟩
      rvalue_throwing_source (.userError 7) rfl).1 rfl).1

/-- Claim C4: a non-empty wrapper holding a payload of type token T answers
the target query for T with exactly the stored payload and answers the query
for every other token with null: the match is on exact type identity. -/
theorem target_exact_type_roundtrip (w : wrapper_base) (c : Callable)
    (h : w.erasure.payload = some c) (u : Nat) :
    w.target u = if u = c.typeId then some c else none := by
  obtain ⟨er⟩ := w
  cases er with
  | null_erasure => simp [Erasure.payload] at h
  | local_erasure t =>
      simp only [Erasure.payload, Option.some.injEq] at h
      subst h
      by_cases hu : u = t.typeId <;>
        simp [wrapper_base.target, wrapper_base.target_type,
          Erasure.target_type, Erasure.target_access, hu]
  | ptm_erasure t =>
      simp only [Erasure.payload, Option.some.injEq] at h
      subst h
      by_cases hu : u = t.typeId <;>
        simp [wrapper_base.target, wrapper_base.target_type,
          Erasure.target_type, Erasure.target_access, hu]
  | allocator_erasure ad t =>
      simp only [Erasure.payload, Option.some.injEq] at h
      subst h
      by_cases hu : u = t.typeId <;>
        simp [wrapper_base.target, wrapper_base.target_type,
          Erasure.target_type, Erasure.target_access, hu]

/-- Claim C4 witness: a wrapper holding sample_payload (token 5) returns it
for the query with token 5. -/
theorem target_exact_type_roundtrip_witness :
    (⟨Erasure.local_erasure sample_payload⟩ : wrapper_base).target 5
      = some sample_payload := by
  have h := target_exact_type_roundtrip
    ⟨Erasure.local_erasure sample_payload⟩ sample_payload rfl 5
  simpa [sample_payload] using h

/-- Claim C5, evaluation of the code as written: the destination of a
wrapper move observes the same target type, invocation results and target
access as the source did before the move, and a source holding the null,
local or ptm erasure is left empty; the allocator_erasure move constructor
transfers the indirection handle with the payload and nulls the handle of
the source; but for an allocator-backed source the o = nullptr reset
destroys the moved-from erasure through the nulled handle, which is
undefined behavior (none), so the source never reaches a defined empty
state there. -/
theorem move_null_handle_destroy_ub :
    (∀ a : wrapper_base,
        (a.init_move.1.target_type = a.target_type)
      ∧ (∀ ar, a.init_move.1.invoke ar = a.invoke ar)
      ∧ (∀ t, a.init_move.1.target t = a.target t))
  ∧ ((⟨Erasure.null_erasure⟩ : wrapper_base).init_move.2
        = some ⟨.null_erasure⟩)
  ∧ (∀ c : Callable,
        (⟨Erasure.local_erasure c⟩ : wrapper_base).init_move.2
          = some ⟨.null_erasure⟩)
  ∧ (∀ c : Callable,
        (⟨Erasure.ptm_erasure c⟩ : wrapper_base).init_move.2
          = some ⟨.null_erasure⟩)
  ∧ (∀ o : allocator_erasure_rec,
        ((allocator_erasure_move o).1.target = o.target)
      ∧ ((allocator_erasure_move o).1.payload = o.payload)
      ∧ ((allocator_erasure_move o).2.target = none))
  ∧ (∀ (ad : Nat) (c : Callable),
        (⟨Erasure.allocator_erasure ad c⟩ : wrapper_base).init_move.2
          = none) := by
  refine ⟨fun a => ?_, rfl, fun _ => rfl, fun _ => rfl,
    fun o => ⟨rfl, rfl, rfl⟩, fun _ _ => rfl⟩
  obtain ⟨er⟩ := a
  cases er <;> exact ⟨rfl, fun _ => rfl, fun _ => rfl⟩

/-- Claim C6: construction or assignment from a null function pointer or a
null pointer to member yields an empty wrapper, whatever the size attribute
of the payload type, so no null callable is ever stored. -/
theorem null_pointer_inits_empty :
    (∀ sz, construct (.fnPointer sz none) = .ok ⟨.null_erasure⟩)
  ∧ (∀ sz, construct (.ptmValue sz none) = .ok ⟨.null_erasure⟩)
  ∧ (∀ (w : wrapper_base) (sz : Nat) (lv : Bool),
        w.assign (.plain (.fnPointer sz none) lv) = .ok ⟨.null_erasure⟩)
  ∧ (∀ (w : wrapper_base) (sz : Nat) (lv : Bool),
        w.assign (.plain (.ptmValue sz none) lv) = .ok ⟨.null_erasure⟩)
  ∧ (∀ sz, (construct (.fnPointer sz none)).map wrapper_base.operator_bool
        = .ok false) :=
  ⟨fun _ => rfl, fun _ => rfl, fun _ _ _ => rfl, fun _ _ _ => rfl,
    fun _ => rfl⟩

/-- Claim C7, evaluation of the code as written: on the fresh heap the
constructor allocates address 0 and constructs the payload there, but after
the destructor runs the allocation at 0 is still live (destroy without
deallocate), and when the construct step throws, the exception leaves with
the allocation at 0 still live as well: both paths leak the storage the
claim says is released. -/
theorem allocator_erasure_leaks :
    (allocator_erasure_ctor ⟨0, [], []⟩ true = .ok (0, ⟨1, [0], [0]⟩))
  ∧ (allocator_erasure_dtor ⟨1, [0], [0]⟩ 0 = ⟨1, [0], []⟩)
  ∧ ((⟨1, [0], []⟩ : Heap).liveAllocs = [0])
  ∧ (allocator_erasure_ctor ⟨0, [], []⟩ false
        = .error (.userError 0, ⟨1, [0], []⟩)) :=
  ⟨rfl, rfl, rfl, rfl⟩

/-- Claim C8: for a signature declared without const, a call through a const
access path resolves to the synthesized fallback overload, which is marked
deprecated yet callable and produces the same result as the call through the
mutable access path. -/
theorem const_path_fallback_same_result :
    (∀ (w : wrapper_base) (a : List Int),
        wrapper_call w .constq a = wrapper_call w .nonconst a)
  ∧ (overload_resolve .constq = .const_fallback)
  ∧ (overload_deprecated (overload_resolve .constq) = true)
  ∧ (overload_deprecated (overload_resolve .nonconst) = false) :=
  ⟨fun _ _ => rfl, rfl, rfl, rfl⟩

/-- Claim C9, evaluation of the code as written: the DISPATCH_TABLE
initializer cannot produce a table whose copy slot is a null reference: for
a non-copy-constructible payload no table forms at all, and every table that
does form has a non-null copy slot; the erasure_copy accessor that would
produce the null slot described by the claim is never consulted. -/
theorem copy_slot_never_null :
    (dispatch_table_as_written none = none)
  ∧ (∀ u, (dispatch_table_as_written (some u)).map SlotTable.copy_slot
        = some (some u))
  ∧ (erasure_copy none = none) :=
  ⟨rfl, fun _ => rfl, rfl⟩

/-- Claim C10: the empty wrapper answers every target query with null,
including the query for the void token itself, because the target access
entry of the empty erasure returns null even though the type token matches.
-/
theorem empty_target_always_null (t : Nat) :
    (⟨Erasure.null_erasure⟩ : wrapper_base).target t = none := by
  unfold wrapper_base.target
  split <;> rfl

end CxxFn
